import Mathlib

/-
Verification development for the freee invoice/quotation client scripts
(src/show_invoice.py and src/show_quotation.py).

Shallow embedding notes:
- JSON token bodies and the credential file are modelled by the record
  TokenData holding the three fields this program reads or writes; a field
  value of none means the key is absent from the JSON object (values are
  modelled as strings / integers, the types the token endpoint returns).
- Network interactions are modelled by explicit environment values that
  supply the response of each HTTP request the code issues; an exception
  raised by the requests library is modelled as an absent response.
- Console printing is not modelled, except where an expression evaluated
  inside a print determines whether the surrounding operation raises an
  uncaught exception out of the function (the detail handlers).
-/

/-- Content of a token-endpoint 200 body or of the credential file
(freee_tokens.json): the three keys the scripts read or write. A none
field means the key is absent. -/
structure TokenData where
  access_token : Option String
  refresh_token : Option String
  company_id : Option Int
deriving DecidableEq, Repr

/-- In-memory client state: self.access_token, self.refresh_token,
self.company_id of FreeeInvoiceAPI / FreeeQuotationAPI. -/
structure ClientState where
  access_token : Option String
  refresh_token : Option String
  company_id : Option Int
deriving DecidableEq, Repr

/-- Python truthiness of an optional string: None and the empty string are
falsy, as tested by the guards if not self.access_token and
if not self.refresh_token. -/
def truthyOptStr : Option String → Bool
  | none => false
  | some s => !(s == "")

/-- Python truthiness of an optional integer: None and 0 are falsy, as
tested by if self.company_id and if not self.company_id. -/
def truthyOptInt : Option Int → Bool
  | none => false
  | some i => !(i == 0)

/-- Outcome of the POST to the token endpoint inside
_refresh_access_token: the request raised, or it returned a status with a
body (body = none models a body that is not valid JSON, so that
response.json() raises). -/
inductive RefreshHttp where
  | exception
  | response (status : Nat) (body : Option TokenData)
deriving DecidableEq, Repr

/-- Result of _refresh_access_token: its boolean return value, the client
state after the call, and the credential file content written by
_save_tokens (none when nothing was written). -/
structure RefreshResult where
  ok : Bool
  state : ClientState
  written : Option TokenData
deriving DecidableEq, Repr

/-- Translation of FreeeInvoiceAPI._refresh_access_token (show_invoice.py
lines 133-171; show_quotation.py lines 138-176 is identical). On a 200
response the source assigns self.access_token from the body before
self.refresh_token; a body lacking the refresh_token key therefore raises
KeyError after the access token was already replaced, the blanket except
catches it and returns False, leaving the torn state in memory. On
success, company_id is copied into the saved body only when
self.company_id is truthy. -/
def refresh_access_token (s : ClientState) (http : RefreshHttp) : RefreshResult :=
  if truthyOptStr s.refresh_token = false then ⟨false, s, none⟩
  else
    match http with
    | .exception => ⟨false, s, none⟩
    | .response status body =>
      if status = 200 then
        match body with
        | none => ⟨false, s, none⟩
        | some td =>
          match td.access_token with
          | none => ⟨false, s, none⟩
          | some a =>
            match td.refresh_token with
            | none => ⟨false, { s with access_token := some a }, none⟩
            | some r =>
              let s2 := { s with access_token := some a, refresh_token := some r }
              let written :=
                if truthyOptInt s.company_id then { td with company_id := s.company_id }
                else td
              ⟨true, s2, some written⟩
      else ⟨false, s, none⟩

/-- Outcome of the POST inside _authenticate, same shape as RefreshHttp. -/
inductive AuthHttp where
  | exception
  | response (status : Nat) (body : Option TokenData)
deriving DecidableEq, Repr

/-- Translation of _authenticate (show_invoice.py lines 173-240) restricted
to its token handling: none models sys.exit(1) (empty code, non-200,
exception, or a KeyError from a missing token key, all of which terminate
the process); some returns the final state and the saved body. -/
def authenticate_tokens (s : ClientState) (auth_code : String) (http : AuthHttp) :
    Option (ClientState × TokenData) :=
  if auth_code.trim = "" then none
  else
    match http with
    | .exception => none
    | .response status body =>
      if status = 200 then
        match body with
        | none => none
        | some td =>
          match td.access_token with
          | none => none
          | some a =>
            match td.refresh_token with
            | none => none
            | some r =>
              some (⟨some a, some r, td.company_id⟩, td)
      else none

/-- A minimal JSON value type for document-API response bodies. -/
inductive Json where
  | null
  | str (s : String)
  | num (n : Int)
  | arr (elems : List Json)
  | obj (fields : List (String × Json))

/-- Python dict lookup d.get(key) on a parsed JSON object. -/
def jsonLookup (fields : List (String × Json)) (key : String) : Option Json :=
  match fields.find? (fun p => p.fst == key) with
  | some p => some p.snd
  | none => none

/-- An HTTP response as the scripts observe it: status code, Content-Type
header, and the body as seen by response.json() (none means the body is
not valid JSON, so response.json() raises json.JSONDecodeError). -/
structure HttpResponse where
  status : Nat
  content_type : String
  body : Option Json

/-- The Python substring test needle in hay, over character lists. -/
def charsHasSub (needle : List Char) : List Char → Bool
  | [] => needle.isEmpty
  | c :: rest => needle.isPrefixOf (c :: rest) || charsHasSub needle rest

/-- The Python substring test needle in hay, on strings. -/
def strHasSub (hay needle : String) : Bool :=
  charsHasSub needle.toList hay.toList

/-- Environment of one _api_request call: the response to the i-th HTTP
request it issues (none models the requests library raising, which the
source re-raises), and the token-endpoint interaction of a refresh
attempt made during the call. -/
structure ApiEnv where
  responses : Nat → Option HttpResponse
  refresh_http : RefreshHttp

/-- Result of _api_request: the response returned to the caller (none
models a re-raised exception), the final client state, the Authorization
header value of each HTTP request issued in order, the number of refresh
attempts made, and the credential file content written during the call. -/
structure ApiResult where
  outcome : Option HttpResponse
  state : ClientState
  auth_headers : List String
  refresh_attempts : Nat
  written : Option TokenData

/-- Authorization header value built from self.access_token by the
f-string Bearer interpolation (Python formats None as the text None). -/
def bearer (t : Option String) : String :=
  "Bearer " ++ (match t with | some s => s | none => "None")

/-- Translation of _api_request (show_invoice.py lines 281-328;
show_quotation.py lines 286-336 differs only in URL construction). The
first request carries the current bearer token; a 401 triggers one call
to _refresh_access_token, and only when that returns True is the same
request re-issued once with the rebuilt Authorization header, its
response returned whatever its status. On refresh failure the original
401 response is returned. -/
def api_request (s : ClientState) (env : ApiEnv) : ApiResult :=
  let h0 := bearer s.access_token
  match env.responses 0 with
  | none => ⟨none, s, [h0], 0, none⟩
  | some r0 =>
    if r0.status = 401 then
      let rr := refresh_access_token s env.refresh_http
      if rr.ok then
        let h1 := bearer rr.state.access_token
        match env.responses 1 with
        | none => ⟨none, rr.state, [h0, h1], 1, rr.written⟩
        | some r1 => ⟨some r1, rr.state, [h0, h1], 1, rr.written⟩
      else ⟨some r0, rr.state, [h0], 1, rr.written⟩
    else ⟨some r0, s, [h0], 0, none⟩

/-- Environment of _verify_token: the status of the probe GET to
/api/1/companies (none models an exception), plus the token-endpoint
interaction used if the probe returns 401. -/
structure VerifyEnv where
  probe : Option Nat
  refresh_http : RefreshHttp

/-- Translation of _verify_token (show_invoice.py lines 96-131): missing
access token or probe exception give False; 200 gives True; 401 defers to
_refresh_access_token; any other status gives False. -/
def verify_token (s : ClientState) (env : VerifyEnv) : RefreshResult :=
  if truthyOptStr s.access_token = false then ⟨false, s, none⟩
  else
    match env.probe with
    | none => ⟨false, s, none⟩
    | some st =>
      if st = 200 then ⟨true, s, none⟩
      else if st = 401 then refresh_access_token s env.refresh_http
      else ⟨false, s, none⟩

/-- Client state loaded from a parsed credential file by _load_tokens
(tokens.get on each key). -/
def state_of_file (td : TokenData) : ClientState :=
  ⟨td.access_token, td.refresh_token, td.company_id⟩

/-- What the authentication phase of the constructor decided. -/
structure InitAuthResult where
  didAuthenticate : Bool
  verifyCalled : Bool
deriving DecidableEq, Repr

/-- Translation of the authentication phase of the constructor
(show_invoice.py lines 52-58): load the token file, and run _authenticate
when no tokens were loaded or _verify_token fails; Python or
short-circuits, so with no file present _verify_token is never called. -/
def init_auth_phase (file : Option TokenData) (venv : VerifyEnv) : InitAuthResult :=
  match file with
  | none => ⟨true, false⟩
  | some td =>
    let v := verify_token (state_of_file td) venv
    if v.ok then ⟨false, true⟩ else ⟨true, true⟩

/-- Translation of the token-file phase of main (show_invoice.py lines
636-670): with the reauth flag the file is removed before the client is
constructed; without it, an existing file is removed only when the user
answers 2 to the interactive menu. -/
def main_startup (reauth : Bool) (file : Option TokenData) (menu_choice : String) :
    Option TokenData :=
  if reauth then none
  else
    match file with
    | some td => if menu_choice = "2" then none else some td
    | none => none

/-- A company record as read from the companies response; id is
company.get(id). -/
structure Company where
  id : Option Int
deriving DecidableEq, Repr

/-- Outcome of the company-selection logic on a finite trace of modelled
inputs: pending means the interactive loop is still waiting for input. -/
inductive SelectOutcome where
  | noCompanies
  | selected (company_id : Option Int)
  | pending
deriving DecidableEq, Repr

/-- The interactive while-loop of _fetch_company_id (show_invoice.py lines
252-264) on a finite trace of inputs; each input is the result of
int(choice) on what the user typed (none models a ValueError). The source
accepts exactly those inputs with 0 <= int(choice) - 1 < len(companies)
and re-prompts on anything else. -/
def selection_loop (cs : List Company) : List (Option Int) → SelectOutcome
  | [] => .pending
  | none :: rest => selection_loop cs rest
  | some k :: rest =>
    if h : 0 ≤ k - 1 ∧ k - 1 < (cs.length : Int) then
      .selected (cs.get ⟨(k - 1).toNat, by omega⟩).id
    else selection_loop cs rest

/-- Translation of the selection part of _fetch_company_id (show_invoice.py
lines 242-268): an empty list selects nothing, a single company is chosen
with no prompt, and more than one company enters the interactive loop. -/
def fetch_company_select (cs : List Company) (inputs : List (Option Int)) : SelectOutcome :=
  match cs with
  | [] => .noCompanies
  | [c] => .selected c.id
  | _ :: _ :: _ => selection_loop cs inputs

/-- Base URL of the resource API (API_BASE_URL in both scripts). -/
def API_BASE_URL : String := "https://api.freee.co.jp"

/-- Base path of the freee invoice-service API (INVOICE_API_BASE in
show_quotation.py), prepended when use_invoice_api is True. -/
def INVOICE_API_BASE : String := "/iv"

/-- A query-parameter value: the scripts send integers and strings. -/
inductive QueryVal where
  | int (i : Int)
  | str (s : String)
deriving DecidableEq, Repr

/-- An HTTP request as built by the document operations: method, full URL,
and the params dict in insertion order. -/
structure ApiRequestSpec where
  method : String
  url : String
  query : List (String × QueryVal)
deriving DecidableEq, Repr

/-- An optional query parameter, added only when the argument is not None. -/
def opt_param (key : String) : Option String → List (String × QueryVal)
  | none => []
  | some v => [(key, QueryVal.str v)]

/-- The list request built by get_invoices (show_invoice.py lines 347-376):
params are company_id and the limit argument unchanged, then the optional
start_issue_date, end_issue_date and invoice_status keys. -/
def invoice_list_request (cid limit : Int) (sd ed st : Option String) : ApiRequestSpec :=
  ⟨"GET", API_BASE_URL ++ "/api/1/invoices",
    ("company_id", .int cid) :: ("limit", .int limit) ::
      (opt_param "start_issue_date" sd ++ opt_param "end_issue_date" ed ++
        opt_param "invoice_status" st)⟩

/-- The list request built by get_quotations (show_quotation.py lines
355-392): params are company_id and min(limit, 100), then the optional
start_quotation_date, end_quotation_date and sending_status keys; the URL
goes through the /iv base because use_invoice_api is True. -/
def quotation_list_request (cid limit : Int) (sd ed st : Option String) : ApiRequestSpec :=
  ⟨"GET", API_BASE_URL ++ INVOICE_API_BASE ++ "/quotations",
    ("company_id", .int cid) :: ("limit", .int (min limit 100)) ::
      (opt_param "start_quotation_date" sd ++ opt_param "end_quotation_date" ed ++
        opt_param "sending_status" st)⟩

/-- The detail request built by get_invoice_detail (show_invoice.py lines
435-444). -/
def invoice_detail_request (cid rid : Int) : ApiRequestSpec :=
  ⟨"GET", API_BASE_URL ++ "/api/1/invoices/" ++ toString rid,
    [("company_id", .int cid)]⟩

/-- The detail request built by get_quotation_detail (show_quotation.py
lines 438-448). -/
def quotation_detail_request (cid rid : Int) : ApiRequestSpec :=
  ⟨"GET", API_BASE_URL ++ INVOICE_API_BASE ++ "/quotations/" ++ toString rid,
    [("company_id", .int cid)]⟩

/-- Value-level outcome of the list response handling: the Json value the
function returns, or an uncaught exception. -/
inductive HandleOutcome where
  | value (v : Json)
  | raised

/-- Response handling of get_invoices (show_invoice.py lines 378-433). The
boolean records whether response.json() was invoked. On 200 the
Content-Type is checked before any decode and a non-JSON type returns []
directly; a decode error is caught and returns []; a decoded body that is
not a dict makes data.get raise an uncaught AttributeError; otherwise the
value under the invoices key (default []) is returned. Non-200 statuses
return []. Diagnostic printing is not modelled. -/
def invoice_list_handle (resp : HttpResponse) : HandleOutcome × Bool :=
  if resp.status = 200 then
    if strHasSub resp.content_type "application/json" then
      match resp.body with
      | none => (.value (Json.arr []), true)
      | some j =>
        match j with
        | .obj fields =>
          match jsonLookup fields "invoices" with
          | some v => (.value v, true)
          | none => (.value (Json.arr []), true)
        | _ => (.raised, true)
    else (.value (Json.arr []), false)
  else (.value (Json.arr []), false)

/-- Response handling of get_quotations (show_quotation.py lines 394-436):
identical to the invoice handler except for the quotations key. -/
def quotation_list_handle (resp : HttpResponse) : HandleOutcome × Bool :=
  if resp.status = 200 then
    if strHasSub resp.content_type "application/json" then
      match resp.body with
      | none => (.value (Json.arr []), true)
      | some j =>
        match j with
        | .obj fields =>
          match jsonLookup fields "quotations" with
          | some v => (.value v, true)
          | none => (.value (Json.arr []), true)
        | _ => (.raised, true)
    else (.value (Json.arr []), false)
  else (.value (Json.arr []), false)

/-- Outcome of the detail response handling: the returned document, the
None return (NotFound), or an uncaught exception. -/
inductive DetailOutcome where
  | doc (fields : List (String × Json))
  | notFoundD
  | raised

/-- Response handling of get_invoice_detail (show_invoice.py lines
446-457). Non-200 returns None; a JSONDecodeError is caught and returns
None; on a decoded dict body, response.json().get(invoice) feeds
invoice.get(invoice_number): a dict value succeeds, while an absent key, a
null, or any non-dict value makes that attribute access raise an
AttributeError the except clause does not catch; a non-dict body makes
.get itself raise. -/
def invoice_detail_handle (resp : HttpResponse) : DetailOutcome :=
  if resp.status = 200 then
    match resp.body with
    | none => .notFoundD
    | some j =>
      match j with
      | .obj fields =>
        match jsonLookup fields "invoice" with
        | some (Json.obj d) => .doc d
        | some _ => .raised
        | none => .raised
      | _ => .raised
  else .notFoundD

/-- Response handling of get_quotation_detail (show_quotation.py lines
450-461): identical to the invoice handler except for the quotation key. -/
def quotation_detail_handle (resp : HttpResponse) : DetailOutcome :=
  if resp.status = 200 then
    match resp.body with
    | none => .notFoundD
    | some j =>
      match j with
      | .obj fields =>
        match jsonLookup fields "quotation" with
        | some (Json.obj d) => .doc d
        | some _ => .raised
        | none => .raised
      | _ => .raised
  else .notFoundD

/-- Modelled from the spec: the DocumentSchema descriptor of section 4.5,
the configuration value (endpoint base, list and detail JSON keys, filter
parameter names) that the spec says is the only difference between the
two document kinds. -/
structure DocumentSchema where
  list_url : String
  detail_url_base : String
  start_date_key : String
  end_date_key : String
  status_key : String
  list_key : String
  detail_key : String

/-- The invoice instance of the schema. -/
def invoice_schema : DocumentSchema :=
  ⟨API_BASE_URL ++ "/api/1/invoices", API_BASE_URL ++ "/api/1/invoices/",
    "start_issue_date", "end_issue_date", "invoice_status", "invoices", "invoice"⟩

/-- The quotation instance of the schema. -/
def quotation_schema : DocumentSchema :=
  ⟨API_BASE_URL ++ INVOICE_API_BASE ++ "/quotations",
    API_BASE_URL ++ INVOICE_API_BASE ++ "/quotations/",
    "start_quotation_date", "end_quotation_date", "sending_status",
    "quotations", "quotation"⟩

/-- Modelled from the spec: the single generic list-request builder of the
DocumentService, with the limit capped at 100 as section 6 states. -/
def generic_list_request (sch : DocumentSchema) (cid limit : Int)
    (sd ed st : Option String) : ApiRequestSpec :=
  ⟨"GET", sch.list_url,
    ("company_id", .int cid) :: ("limit", .int (min limit 100)) ::
      (opt_param sch.start_date_key sd ++ opt_param sch.end_date_key ed ++
        opt_param sch.status_key st)⟩

/-- Modelled from the spec: the single generic detail-request builder. -/
def generic_detail_request (sch : DocumentSchema) (cid rid : Int) : ApiRequestSpec :=
  ⟨"GET", sch.detail_url_base ++ toString rid, [("company_id", .int cid)]⟩

/-- Modelled from the spec: the single generic list-response handler,
parametrized by the list key of the schema. -/
def generic_list_handle (sch : DocumentSchema) (resp : HttpResponse) :
    HandleOutcome × Bool :=
  if resp.status = 200 then
    if strHasSub resp.content_type "application/json" then
      match resp.body with
      | none => (.value (Json.arr []), true)
      | some j =>
        match j with
        | .obj fields =>
          match jsonLookup fields sch.list_key with
          | some v => (.value v, true)
          | none => (.value (Json.arr []), true)
        | _ => (.raised, true)
    else (.value (Json.arr []), false)
  else (.value (Json.arr []), false)

/-- Modelled from the spec: the single generic detail-response handler,
parametrized by the detail key of the schema. -/
def generic_detail_handle (sch : DocumentSchema) (resp : HttpResponse) : DetailOutcome :=
  if resp.status = 200 then
    match resp.body with
    | none => .notFoundD
    | some j =>
      match j with
      | .obj fields =>
        match jsonLookup fields sch.detail_key with
        | some (Json.obj d) => .doc d
        | some _ => .raised
        | none => .raised
      | _ => .raised
  else .notFoundD

/-- C5: for every run started with the re-authenticate flag, any existing
credential file is discarded before the session starts, and the
constructor runs the Authenticating branch without ever calling the
verification probe, whatever verification environment (including one
whose probe would have returned 200). -/
theorem c5_reauth_forces_authenticate (file : Option TokenData) (venv : VerifyEnv)
    (menu_choice : String) :
    main_startup true file menu_choice = none ∧
    (init_auth_phase (main_startup true file menu_choice) venv).didAuthenticate = true ∧
    (init_auth_phase (main_startup true file menu_choice) venv).verifyCalled = false :=
  ⟨rfl, rfl, rfl⟩

/-- C2 counterexample: get_invoices with limit 150 sends the limit query
parameter 150, not min(150, 100) = 100, so the claimed cap does not hold
for the invoice list operation. -/
theorem c2_counterexample :
    List.lookup "limit" (invoice_list_request 1 150 none none none).query =
      some (QueryVal.int 150) ∧
    QueryVal.int 150 ≠ QueryVal.int (min 150 100) := by
  constructor
  · rfl
  · decide

/-- C2 amended: the quotation list operation caps the sent limit at 100
(it sends min(limit, 100)), while the invoice list operation sends the
caller-supplied limit unchanged. -/
theorem c2_amended_limit_cap (cid limit : Int) (sd ed st : Option String) :
    List.lookup "limit" (quotation_list_request cid limit sd ed st).query =
      some (QueryVal.int (min limit 100)) ∧
    min limit 100 ≤ 100 ∧
    List.lookup "limit" (invoice_list_request cid limit sd ed st).query =
      some (QueryVal.int limit) :=
  ⟨rfl, min_le_right limit 100, rfl⟩

/-- C3 counterexample: starting from access token oldA and refresh token
oldR, a 200 token-endpoint response whose body contains access_token newA
but lacks refresh_token leaves the client with the new access token and
the old refresh token, a reachable outcome in which the two were not
replaced together. -/
theorem c3_counterexample :
    (refresh_access_token ⟨some "oldA", some "oldR", none⟩
        (.response 200 (some ⟨some "newA", none, none⟩))).state.access_token =
      some "newA" ∧
    (refresh_access_token ⟨some "oldA", some "oldR", none⟩
        (.response 200 (some ⟨some "newA", none, none⟩))).state.refresh_token =
      some "oldR" ∧
    (some "newA" : Option String) ≠ some "oldA" := by
  refine ⟨rfl, rfl, by decide⟩

/-- C3 amended: refresh and authenticate replace the in-memory access and
refresh tokens together in every case except one: a 200 refresh response
whose body contains access_token but lacks refresh_token updates only the
access token (the KeyError is caught and refresh reports failure); in
authenticate every outcome that does not terminate the process replaces
both tokens together. -/
theorem c3_amended_tokens_together (s : ClientState) (http : RefreshHttp)
    (auth_code : String) (ahttp : AuthHttp) :
    (((refresh_access_token s http).state.access_token = s.access_token ∧
        (refresh_access_token s http).state.refresh_token = s.refresh_token) ∨
      (∃ td a r, http = .response 200 (some td) ∧ td.access_token = some a ∧
        td.refresh_token = some r ∧ (refresh_access_token s http).ok = true ∧
        (refresh_access_token s http).state.access_token = some a ∧
        (refresh_access_token s http).state.refresh_token = some r) ∨
      (∃ td a, http = .response 200 (some td) ∧ td.access_token = some a ∧
        td.refresh_token = none ∧ (refresh_access_token s http).ok = false ∧
        (refresh_access_token s http).state.access_token = some a ∧
        (refresh_access_token s http).state.refresh_token = s.refresh_token)) ∧
    (match authenticate_tokens s auth_code ahttp with
      | none => True
      | some p => p.1.access_token = p.2.access_token ∧
          p.1.refresh_token = p.2.refresh_token) := by
  constructor
  · unfold refresh_access_token
    by_cases hrt : truthyOptStr s.refresh_token = false
    · simp [hrt]
    · simp only [hrt, if_false]
      match http with
      | .exception => simp
      | .response status body =>
        by_cases hst : status = 200
        · subst hst
          match body with
          | none => simp
          | some td =>
            match ha : td.access_token with
            | none => simp [ha]
            | some a =>
              match hr : td.refresh_token with
              | none =>
                refine Or.inr (Or.inr ⟨td, a, rfl, ha, hr, ?_⟩)
                simp [ha, hr]
              | some r =>
                refine Or.inr (Or.inl ⟨td, a, r, rfl, ha, hr, ?_⟩)
                simp [ha, hr]
        · simp [hst]
  · unfold authenticate_tokens
    by_cases hc : auth_code.trim = ""
    · simp [hc]
    · simp only [hc, if_false]
      match ahttp with
      | .exception => simp
      | .response status body =>
        by_cases hst : status = 200
        · subst hst
          match body with
          | none => simp
          | some td =>
            match ha : td.access_token with
            | none => simp [ha]
            | some a =>
              match hr : td.refresh_token with
              | none => simp [ha, hr]
              | some r => simp [ha, hr]
        · simp [hst]

/-- C4: for every client whose company_id is set (truthy, the notion of
set-ness the source itself uses in if self.company_id), a successful
refresh writes a credential file holding the new access and refresh
tokens together with the original company_id, overriding any company_id
the token endpoint may have returned. -/
theorem c4_company_id_preserved (s : ClientState) (td : TokenData) (a r : String)
    (hset : truthyOptInt s.company_id = true)
    (hrt : truthyOptStr s.refresh_token = true)
    (ha : td.access_token = some a) (hr : td.refresh_token = some r) :
    (refresh_access_token s (.response 200 (some td))).ok = true ∧
    (refresh_access_token s (.response 200 (some td))).written =
      some ⟨some a, some r, s.company_id⟩ := by
  obtain ⟨ta, tr, tc⟩ := td
  simp only at ha hr
  subst ha
  subst hr
  unfold refresh_access_token
  simp [hrt, hset]

/-- C4 witness: a concrete client with company_id 5 and a 200 body that
itself carries company_id 9 still gets a file with the original 5. -/
theorem c4_witness :
    truthyOptInt (some 5) = true ∧ truthyOptStr (some "r0") = true ∧
    (refresh_access_token ⟨some "a0", some "r0", some 5⟩
        (.response 200 (some ⟨some "a1", some "r1", some 9⟩))).ok = true ∧
    (refresh_access_token ⟨some "a0", some "r0", some 5⟩
        (.response 200 (some ⟨some "a1", some "r1", some 9⟩))).written =
      some ⟨some "a1", some "r1", some 5⟩ :=
  ⟨by decide, by decide,
    c4_company_id_preserved ⟨some "a0", some "r0", some 5⟩
      ⟨some "a1", some "r1", some 9⟩ "a1" "r1" (by decide) (by decide) rfl rfl⟩

/-- C1: a request whose first response is 401 makes exactly one refresh
attempt and issues at most one retried request; when the refresh
succeeds, the retry carries the rebuilt Authorization header built from
the new access token and its response is returned as-is (in particular a
second 401), with no second refresh; when the refresh fails the original
401 is returned. -/
theorem c1_refresh_exactly_once (s : ClientState) (env : ApiEnv) (r0 : HttpResponse)
    (h0 : env.responses 0 = some r0) (h401 : r0.status = 401) :
    (api_request s env).refresh_attempts = 1 ∧
    (api_request s env).auth_headers.length ≤ 2 ∧
    ((refresh_access_token s env.refresh_http).ok = true →
      (api_request s env).auth_headers =
        [bearer s.access_token,
          bearer (refresh_access_token s env.refresh_http).state.access_token] ∧
      (api_request s env).outcome = env.responses 1) ∧
    ((refresh_access_token s env.refresh_http).ok = false →
      (api_request s env).outcome = some r0 ∧
      (api_request s env).auth_headers = [bearer s.access_token]) := by
  unfold api_request
  rw [h0]
  by_cases hok : (refresh_access_token s env.refresh_http).ok = true
  · cases hr1 : env.responses 1 <;> simp [h401, hok, hr1]
  · rw [Bool.not_eq_true] at hok
    simp [h401, hok]

/-- C1 witness: a concrete 401 followed by a successful refresh and a
retry that is itself a 401 yields one refresh, the rebuilt header on the
retry, and the second 401 returned as-is. -/
theorem c1_witness :
    (let s : ClientState := ⟨some "a0", some "r0", none⟩
     let env : ApiEnv := ⟨fun _ => some ⟨401, "application/json", none⟩,
       .response 200 (some ⟨some "a1", some "r1", none⟩)⟩
     (api_request s env).refresh_attempts = 1 ∧
     (api_request s env).auth_headers.length ≤ 2 ∧
     (api_request s env).outcome = some ⟨401, "application/json", none⟩) := by
  have h := c1_refresh_exactly_once ⟨some "a0", some "r0", none⟩
    ⟨fun _ => some ⟨401, "application/json", none⟩,
      .response 200 (some ⟨some "a1", some "r1", none⟩)⟩
    ⟨401, "application/json", none⟩ rfl rfl
  exact ⟨h.1, h.2.1, (h.2.2.1 rfl).2⟩

/-- C6: a request whose first response is 401 and whose single refresh
attempt fails for one of the causes the source produces False for
(missing refresh token, refresh exception, or a non-200 refresh response)
returns the original 401 response, issues no retried request, and makes
exactly the one refresh attempt. -/
theorem c6_refresh_failure_returns_original (s : ClientState) (env : ApiEnv)
    (r0 : HttpResponse) (h0 : env.responses 0 = some r0) (h401 : r0.status = 401)
    (hfail : truthyOptStr s.refresh_token = false ∨ env.refresh_http = .exception ∨
      ∃ st b, env.refresh_http = .response st b ∧ st ≠ 200) :
    (api_request s env).outcome = some r0 ∧
    (api_request s env).auth_headers = [bearer s.access_token] ∧
    (api_request s env).refresh_attempts = 1 := by
  have hok : (refresh_access_token s env.refresh_http).ok = false := by
    unfold refresh_access_token
    rcases hfail with h | h | ⟨st, b, he, hne⟩
    · simp [h]
    · by_cases ht : truthyOptStr s.refresh_token = false
      · simp [ht]
      · simp [ht, h]
    · by_cases ht : truthyOptStr s.refresh_token = false
      · simp [ht]
      · simp [ht, he, hne]
  unfold api_request
  rw [h0]
  simp [h401, hok]

/-- C6 witness: a 401 followed by a 400 from the token endpoint returns
the original 401 and issues a single request. -/
theorem c6_witness :
    (let s : ClientState := ⟨some "a0", some "r0", none⟩
     let env : ApiEnv := ⟨fun _ => some ⟨401, "text/plain", none⟩,
       .response 400 none⟩
     (api_request s env).outcome = some ⟨401, "text/plain", none⟩ ∧
     (api_request s env).auth_headers = [bearer (some "a0")] ∧
     (api_request s env).refresh_attempts = 1) := by
  exact c6_refresh_failure_returns_original ⟨some "a0", some "r0", none⟩
    ⟨fun _ => some ⟨401, "text/plain", none⟩, .response 400 none⟩
    ⟨401, "text/plain", none⟩ rfl rfl
    (Or.inr (Or.inr ⟨400, none, rfl, by decide⟩))

/-- C7: a document-list response with status 200 whose Content-Type does
not contain application/json yields the empty list in both clients, and
response.json() is never invoked (second component false), so no decode
exception can arise. -/
theorem c7_non_json_returns_empty (resp : HttpResponse) (h200 : resp.status = 200)
    (hct : strHasSub resp.content_type "application/json" = false) :
    invoice_list_handle resp = (HandleOutcome.value (Json.arr []), false) ∧
    quotation_list_handle resp = (HandleOutcome.value (Json.arr []), false) := by
  unfold invoice_list_handle quotation_list_handle
  simp [h200, hct]

/-- C7 witness: a 200 text/html response is handled as an empty list with
no decode attempted. -/
theorem c7_witness :
    (⟨200, "text/html; charset=utf-8", none⟩ : HttpResponse).status = 200 ∧
    strHasSub "text/html; charset=utf-8" "application/json" = false ∧
    invoice_list_handle ⟨200, "text/html; charset=utf-8", none⟩ =
      (HandleOutcome.value (Json.arr []), false) :=
  ⟨rfl, by decide,
    (c7_non_json_returns_empty ⟨200, "text/html; charset=utf-8", none⟩ rfl (by decide)).1⟩

/-- Helper: case analysis of the generic detail-response handler: it
returns None exactly on a non-200 status or an undecodable body, and a
decoded dict body lacking the detail key raises. -/
theorem detail_handle_cases (sch : DocumentSchema) (resp : HttpResponse) :
    ((generic_detail_handle sch resp = .notFoundD) ↔
      (resp.status ≠ 200 ∨ resp.body = none)) ∧
    (∀ fields, resp.status = 200 → resp.body = some (.obj fields) →
      jsonLookup fields sch.detail_key = none →
      generic_detail_handle sch resp = .raised) := by
  obtain ⟨st, ct, body⟩ := resp
  by_cases h : st = 200
  · subst h
    constructor
    · match body with
      | none => simp [generic_detail_handle]
      | some j =>
        match j with
        | .null => simp [generic_detail_handle]
        | .str sv => simp [generic_detail_handle]
        | .num n => simp [generic_detail_handle]
        | .arr es => simp [generic_detail_handle]
        | .obj fields =>
          cases hl : jsonLookup fields sch.detail_key with
          | none => simp [generic_detail_handle, hl]
          | some v => cases v <;> simp [generic_detail_handle, hl]
    · intro fields h200 hbody hlk
      simp only at hbody
      subst hbody
      simp [generic_detail_handle, hlk]
  · constructor
    · simp [generic_detail_handle, h]
    · intro fields h200
      exact absurd h200 h

/-- C10: in both clients the detail operation returns None exactly when
the status is not 200 or the body fails to decode; a 200 response whose
body decodes to a dict lacking the detail key is not mapped to None but
raises an uncaught exception. -/
theorem c10_detail_contract (resp : HttpResponse) :
    ((invoice_detail_handle resp = .notFoundD) ↔
      (resp.status ≠ 200 ∨ resp.body = none)) ∧
    ((quotation_detail_handle resp = .notFoundD) ↔
      (resp.status ≠ 200 ∨ resp.body = none)) ∧
    (∀ fields, resp.status = 200 → resp.body = some (.obj fields) →
      jsonLookup fields "invoice" = none → invoice_detail_handle resp = .raised) ∧
    (∀ fields, resp.status = 200 → resp.body = some (.obj fields) →
      jsonLookup fields "quotation" = none → quotation_detail_handle resp = .raised) := by
  have hi : invoice_detail_handle resp = generic_detail_handle invoice_schema resp := rfl
  have hq : quotation_detail_handle resp = generic_detail_handle quotation_schema resp := rfl
  have di := detail_handle_cases invoice_schema resp
  have dq := detail_handle_cases quotation_schema resp
  refine ⟨by rw [hi]; exact di.1, by rw [hq]; exact dq.1, ?_, ?_⟩
  · intro fields h1 h2 h3
    rw [hi]
    exact di.2 fields h1 h2 h3
  · intro fields h1 h2 h3
    rw [hq]
    exact dq.2 fields h1 h2 h3

/-- C10 witness: a 404 yields None, and a 200 dict body without the
invoice key raises out of the operation. -/
theorem c10_witness :
    invoice_detail_handle ⟨404, "application/json", none⟩ = DetailOutcome.notFoundD ∧
    invoice_detail_handle ⟨200, "application/json", some (Json.obj [])⟩ =
      DetailOutcome.raised := by
  constructor
  · exact (c10_detail_contract ⟨404, "application/json", none⟩).1.mpr
      (Or.inl (by decide))
  · exact (c10_detail_contract ⟨200, "application/json", some (Json.obj [])⟩).2.2.1
      [] rfl rfl rfl

/-- C8: a company list of length one is selected with no interactive
prompt (selection completes even on an empty input trace); with two or
more companies, an input is accepted exactly when it parses as an integer
k with 1 <= k <= N, selecting the k-th company, and every other input
(a parse failure or an out-of-range integer) re-prompts, continuing the
loop on the remaining inputs. -/
theorem c8_company_selection (cs : List Company) (inputs rest : List (Option Int)) :
    (∀ c, cs = [c] → fetch_company_select cs inputs = .selected c.id) ∧
    (2 ≤ cs.length →
      (fetch_company_select cs (none :: rest) = fetch_company_select cs rest) ∧
      (∀ k : Int, (k < 1 ∨ (cs.length : Int) < k) →
        fetch_company_select cs (some k :: rest) = fetch_company_select cs rest) ∧
      (∀ k : Int, 1 ≤ k → k ≤ (cs.length : Int) →
        ∃ h : (k - 1).toNat < cs.length,
          fetch_company_select cs (some k :: rest) =
            .selected (cs.get ⟨(k - 1).toNat, h⟩).id)) := by
  constructor
  · rintro c rfl
    rfl
  · intro hlen
    match cs, hlen with
    | a :: b :: t, _ =>
      refine ⟨rfl, ?_, ?_⟩
      · intro k hk
        show selection_loop (a :: b :: t) (some k :: rest) =
          selection_loop (a :: b :: t) rest
        rw [selection_loop]
        rw [dif_neg]
        rintro ⟨hk1, hk2⟩
        simp only [List.length_cons] at hk2 hk
        omega
      · intro k hk1 hk2
        have hlt : (k - 1).toNat < (a :: b :: t).length := by
          simp only [List.length_cons] at hk2 ⊢
          omega
        refine ⟨hlt, ?_⟩
        show selection_loop (a :: b :: t) (some k :: rest) = _
        rw [selection_loop]
        rw [dif_pos ⟨by omega, by simp only [List.length_cons] at hk2 ⊢; omega⟩]

/-- C8 witness: one company is auto-selected with no input consumed; with
two companies, the inputs 9 (out of range) and a non-integer re-prompt,
then 2 selects the second company. -/
theorem c8_witness :
    fetch_company_select [⟨some 7⟩] [] = .selected (some 7) ∧
    fetch_company_select [⟨some 10⟩, ⟨some 20⟩] [some 9, none, some 2] =
      .selected (some 20) := by
  constructor
  · exact (c8_company_selection [⟨some 7⟩] [] []).1 ⟨some 7⟩ rfl
  · have h1 := (c8_company_selection [⟨some 10⟩, ⟨some 20⟩] [] [none, some 2]).2
      (by decide)
    have h2 := (c8_company_selection [⟨some 10⟩, ⟨some 20⟩] [] [some 2]).2
      (by decide)
    have h3 := (c8_company_selection [⟨some 10⟩, ⟨some 20⟩] [] []).2 (by decide)
    rw [h1.2.1 9 (Or.inr (by decide))]
    rw [h2.1]
    obtain ⟨hh, he⟩ := h3.2.2 2 (by decide) (by decide)
    rw [he]
    rfl

/-- C9 counterexample: with the same inputs (limit 150) the two clients
build different list requests in a way no schema substitution covers: the
invoice client sends limit 150 while the quotation client sends 100. -/
theorem c9_counterexample :
    List.lookup "limit" (invoice_list_request 7 150 none none none).query =
      some (QueryVal.int 150) ∧
    List.lookup "limit" (quotation_list_request 7 150 none none none).query =
      some (QueryVal.int 100) ∧
    QueryVal.int 150 ≠ QueryVal.int 100 := by
  refine ⟨by decide, by decide, by decide⟩

/-- C9 amended: the two clients are behaviorally equivalent to the single
schema-parametrized DocumentService — identical requests and identical
response handling modulo the schema substitution — for the detail
operation and all response handling on every input, and for the list
request whenever limit is at most 100; above 100 the limit handling
differs (see the counterexample). -/
theorem c9_amended_equiv_up_to_schema (cid limit rid : Int) (sd ed st : Option String)
    (resp : HttpResponse) (hlim : limit ≤ 100) :
    invoice_list_request cid limit sd ed st =
      generic_list_request invoice_schema cid limit sd ed st ∧
    quotation_list_request cid limit sd ed st =
      generic_list_request quotation_schema cid limit sd ed st ∧
    invoice_detail_request cid rid = generic_detail_request invoice_schema cid rid ∧
    quotation_detail_request cid rid = generic_detail_request quotation_schema cid rid ∧
    invoice_list_handle resp = generic_list_handle invoice_schema resp ∧
    quotation_list_handle resp = generic_list_handle quotation_schema resp ∧
    invoice_detail_handle resp = generic_detail_handle invoice_schema resp ∧
    quotation_detail_handle resp = generic_detail_handle quotation_schema resp := by
  refine ⟨?_, rfl, rfl, rfl, rfl, rfl, rfl, rfl⟩
  unfold invoice_list_request generic_list_request invoice_schema
  rw [min_eq_left hlim]

/-- C9 witness: at limit 50 the invoice list request coincides with the
generic schema-parametrized request at the invoice schema. -/
theorem c9_witness :
    (50 : Int) ≤ 100 ∧
    invoice_list_request 3 50 none none none =
      generic_list_request invoice_schema 3 50 none none none :=
  ⟨by decide,
    (c9_amended_equiv_up_to_schema 3 50 0 none none none
      ⟨200, "application/json", none⟩ (by decide)).1⟩
